import Mathlib

/-!
Verification of the OfferUp item-price service (`src/OfferUp.py`).

The service answers GET requests carrying an `item` and an optional `city`.
It derives a cache key, probes an in-process TTL cache, and on a miss runs
two aggregate queries against a relational table of price records: a COUNT
query and a mode query (GROUP BY list_price ORDER BY COUNT DESC,
list_price DESC LIMIT 1).  Results with a non-zero count are cached for
300 seconds.

The shallow embedding below models:
 * the price-record table as a `List PriceRecord`;
 * the two SQL queries by their denotations over that list
   (`countQuery`, `modeQuery`), including the conditional city clause
   built from Python truthiness of `city` and `item`;
 * the werkzeug `SimpleCache` as an association list of
   (key, payload, absolute-expiry) triples with strict-inequality expiry,
   matching `SimpleCache.get`'s `expires > time()` test;
 * the request handler `ItemPriceService.get` and the resolver
   `query_item_price_db` as state-passing functions over a `World` that
   also carries instrumentation: a backing-store query counter, a
   cache-probe counter, a rollback counter and the connection's
   open-transaction flag;
 * `query_db` (cursor.execute / fetchone with the
   `except ProgrammingError: rollback; raise` handler) as a function that
   either evaluates the query denotation on the table or, when the world's
   `dbFails` flag is set, rolls the connection back and returns the
   propagating `ProgrammingError`.
-/

/-- A row of the `itemPrices_itemsale` table: columns `title`, `list_price`,
`sell_price`, `city`, `cashless`. -/
structure PriceRecord where
  title : String
  list_price : Int
  sell_price : Int
  city : String
  cashless : Bool
deriving DecidableEq

/-- Content of the JSON body of a successful response. -/
structure SuccessContent where
  item : String
  item_count : Nat
  price_suggestion : Option Int
  city : String
deriving DecidableEq

/-- The `content` field of a response: either a bare message (the not-found
shape) or the success shape. -/
inductive Content where
  | message (msg : String)
  | priceInfo (c : SuccessContent)
deriving DecidableEq

/-- A response payload: `status` plus `content`. -/
structure Payload where
  status : Nat
  content : Content
deriving DecidableEq

/-- The constant not-found payload `ERROR_RESPONSE` of the module. -/
def ERROR_RESPONSE : Payload :=
  { status := 404, content := Content.message "Not found" }

/-- The only store error the code handles: `psycopg2.ProgrammingError`. -/
inductive DbError where
  | programmingError
deriving DecidableEq

instance {ε α : Type} [DecidableEq ε] [DecidableEq α] : DecidableEq (Except ε α) := fun x y =>
  match x, y with
  | Except.ok a, Except.ok b =>
      if h : a = b then Decidable.isTrue (by rw [h]) else Decidable.isFalse (by simp [h])
  | Except.error a, Except.error b =>
      if h : a = b then Decidable.isTrue (by rw [h]) else Decidable.isFalse (by simp [h])
  | Except.ok _, Except.error _ => Decidable.isFalse (by simp)
  | Except.error _, Except.ok _ => Decidable.isFalse (by simp)

/-- Python truthiness of an optional string (`None` and `""` are falsy). -/
def pyTruthy : Option String → Bool
  | none => false
  | some s => !(s == "")

/-- Python truthiness of a string (`""` is falsy). -/
def pyTruthyStr (s : String) : Bool := !(s == "")

/-- The WHERE clause shared by both query strings of `query_item_price_db`:
`title=%s` always, plus `AND city=%s` exactly when the Python condition
`city and item` is truthy (the `city_clause`). -/
def rowMatches (city : Option String) (item : String) (r : PriceRecord) : Bool :=
  if pyTruthy city && pyTruthyStr item then
    (r.title == item) && (r.city == city.getD "")
  else
    r.title == item

/-- Denotation of the count query: `SELECT COUNT(list_price) FROM
"itemPrices_itemsale" WHERE title=%s [AND city=%s]`.  The `list_price`
column is non-null, so COUNT(list_price) is the number of matching rows. -/
def countQuery (db : List PriceRecord) (city : Option String) (item : String) : Nat :=
  ((db.filter (rowMatches city item)).map (fun r => r.list_price)).length

/-- The `list_price` values of the rows matching the WHERE clause. -/
def pricesOf (db : List PriceRecord) (city : Option String) (item : String) : List Int :=
  (db.filter (rowMatches city item)).map (fun r => r.list_price)

/-- Number of occurrences of a price value in a list of prices
(COUNT(list_price) within one GROUP BY group). -/
def freqIn (l : List Int) (p : Int) : Nat := (l.filter (fun q => q == p)).length

/-- The GROUP BY list_price result set: one (price, frequency) row per
distinct price value. -/
def priceGroups (l : List Int) : List (Int × Nat) :=
  l.dedup.map (fun p => (p, freqIn l p))

/-- The sort order `ORDER BY COUNT(list_price) DESC, list_price DESC`:
`beats x y` holds when row `x` is sorted strictly before row `y`. -/
def beats (x y : Int × Nat) : Bool :=
  decide (y.2 < x.2) || ((x.2 == y.2) && decide (y.1 < x.1))

/-- Selection step for the sorted-first row: keep the best row seen so far,
replacing it whenever the next row sorts strictly before it. -/
def pickTop (best x : Int × Nat) : Int × Nat := if beats x best then x else best

/-- LIMIT 1 under the `beats` order: the row no other row sorts before. -/
def topGroup : List (Int × Nat) → Option (Int × Nat)
  | [] => none
  | g :: gs => some (gs.foldl pickTop g)

/-- Denotation of the mode query: `SELECT list_price, COUNT(list_price) AS
frequency ... GROUP BY list_price ORDER BY COUNT(list_price) DESC,
list_price DESC LIMIT 1`, projected (`[0]`) to the `list_price` column. -/
def modeQuery (db : List PriceRecord) (city : Option String) (item : String) : Option Int :=
  (topGroup (priceGroups (pricesOf db city item))).map (fun g => g.1)

/-- A cache entry: key, stored payload, absolute expiry time. -/
abbrev CacheEntry := String × Payload × Nat

/-- `SimpleCache.get`: return the stored value only while `expires > time()`. -/
def cache_get (cache : List CacheEntry) (key : String) (now : Nat) : Option Payload :=
  match cache.find? (fun e => e.1 == key) with
  | some (_, v, expires) => if now < expires then some v else none
  | none => none

/-- `SimpleCache.set`: overwrite any entry for the key, storing the value
with the given absolute expiry (`time() + timeout` at the call site). -/
def cache_set (cache : List CacheEntry) (key : String) (v : Payload) (expires : Nat) :
    List CacheEntry :=
  (key, v, expires) :: cache.filter (fun e => !(e.1 == key))

/-- The mutable state visible to one request, plus instrumentation.
`db` is the backing table, `dbFails` makes every store query raise
`ProgrammingError`, `cache` is `price_cache`, `now` is the current time in
seconds; `queries` counts `cursor.execute` calls, `rollbacks` counts
`connection.rollback` calls, `openTransaction` tracks whether the
connection has an uncommitted transaction, and `cacheGets` counts
`price_cache.get` probes. -/
structure World where
  db : List PriceRecord
  dbFails : Bool
  cache : List CacheEntry
  now : Nat
  queries : Nat
  rollbacks : Nat
  openTransaction : Bool
  cacheGets : Nat
deriving DecidableEq

/-- The cache key: `city + item` when `city is not None`, else `item`. -/
def price_key (item : String) : Option String → String
  | none => item
  | some c => c ++ item

/-- The `city` field of the success payload: the literal `"Not specified"`
when `city is None`, else the supplied city string. -/
def city_str : Option String → String
  | none => "Not specified"
  | some c => c

namespace ItemPriceService

/-- `query_db`: run one query through the shared cursor.  Executing opens a
transaction; on `ProgrammingError` the connection is rolled back before the
exception propagates (`except psycopg2.ProgrammingError: connection.rollback();
raise e`). -/
def query_db {α : Type} (w : World) (run : List PriceRecord → α) : World × Except DbError α :=
  if w.dbFails then
    ({ w with queries := w.queries + 1, openTransaction := false,
              rollbacks := w.rollbacks + 1 },
     Except.error DbError.programmingError)
  else
    ({ w with queries := w.queries + 1, openTransaction := true }, Except.ok (run w.db))

/-- `query_item_price_db`: run the count query; if the count is `0` return
`(0, None)` without running the mode query, else run the mode query and
return `(count, mode)`. -/
def query_item_price_db (w : World) (city : Option String) (item : String) :
    World × Except DbError (Nat × Option Int) :=
  match query_db w (fun db => countQuery db city item) with
  | (w1, Except.error e) => (w1, Except.error e)
  | (w1, Except.ok count) =>
    if count = 0 then (w1, Except.ok (0, none))
    else
      match query_db w1 (fun db => modeQuery db city item) with
      | (w2, Except.error e) => (w2, Except.error e)
      | (w2, Except.ok mode) => (w2, Except.ok (count, mode))

/-- The request handler `ItemPriceService.get`.  `item` and `city` are the
parsed request arguments (`None` when absent).  Returns the final world and
either a payload or a propagating store error. -/
def get (w0 : World) (item city : Option String) : World × Except DbError Payload :=
  match item with
  | none => (w0, Except.ok ERROR_RESPONSE)
  | some item =>
    let key := price_key item city
    let w := { w0 with cacheGets := w0.cacheGets + 1 }
    match cache_get w.cache key w.now with
    | some price => (w, Except.ok price)
    | none =>
      match query_item_price_db w city item with
      | (w1, Except.error e) => (w1, Except.error e)
      | (w1, Except.ok (item_count, mode)) =>
        if item_count = 0 then (w1, Except.ok ERROR_RESPONSE)
        else
          let price : Payload :=
            { status := 200,
              content := Content.priceInfo
                { item := item, item_count := item_count,
                  price_suggestion := mode, city := city_str city } }
          ({ w1 with cache := cache_set w1.cache key price (w1.now + 5 * 60) },
           Except.ok price)

end ItemPriceService

/-! ### Helper lemmas -/

/-- The reflexive order corresponding to `beats`: `geLex x y` says row `x`
sorts no later than row `y` under
`ORDER BY COUNT(list_price) DESC, list_price DESC`. -/
def geLex (x y : Int × Nat) : Prop := y.2 < x.2 ∨ (x.2 = y.2 ∧ y.1 ≤ x.1)

lemma geLex_refl (x : Int × Nat) : geLex x x := Or.inr ⟨rfl, le_refl _⟩

lemma geLex_trans {x y z : Int × Nat} (h1 : geLex x y) (h2 : geLex y z) : geLex x z := by
  rcases x with ⟨a, b⟩; rcases y with ⟨c, d⟩; rcases z with ⟨e, f⟩
  simp only [geLex] at *
  omega

lemma beats_true_geLex {x y : Int × Nat} (h : beats x y = true) : geLex x y := by
  rcases x with ⟨a, b⟩; rcases y with ⟨c, d⟩
  simp only [beats, Bool.or_eq_true, decide_eq_true_eq, Bool.and_eq_true, beq_iff_eq] at h
  simp only [geLex]
  omega

lemma beats_false_geLex {x y : Int × Nat} (h : beats x y = false) : geLex y x := by
  rcases x with ⟨a, b⟩; rcases y with ⟨c, d⟩
  simp only [beats, Bool.or_eq_false_iff, decide_eq_false_iff_not, Bool.and_eq_false_iff,
    beq_eq_false_iff_ne, ne_eq] at h
  simp only [geLex]
  omega

lemma geLex_pickTop_left (g y : Int × Nat) : geLex (pickTop g y) g := by
  unfold pickTop
  split
  · next h => exact beats_true_geLex h
  · exact geLex_refl g

lemma geLex_pickTop_right (g y : Int × Nat) : geLex (pickTop g y) y := by
  unfold pickTop
  split
  · exact geLex_refl y
  · next h => exact beats_false_geLex (Bool.of_not_eq_true h)

lemma foldl_pickTop_spec (gs : List (Int × Nat)) (g : Int × Nat) :
    gs.foldl pickTop g ∈ g :: gs ∧ ∀ x ∈ g :: gs, geLex (gs.foldl pickTop g) x := by
  induction gs generalizing g with
  | nil =>
    refine ⟨by simp, ?_⟩
    intro x hx
    simp only [List.foldl_nil]
    rw [List.mem_singleton] at hx
    exact hx ▸ geLex_refl x
  | cons y ys ih =>
    simp only [List.foldl_cons]
    obtain ⟨ihmem, ihall⟩ := ih (pickTop g y)
    have hpick : pickTop g y = y ∨ pickTop g y = g := by
      unfold pickTop; split <;> simp
    have hhead : geLex (ys.foldl pickTop (pickTop g y)) (pickTop g y) :=
      ihall _ (List.mem_cons_self _ _)
    constructor
    · rcases List.mem_cons.mp ihmem with he | hm
      · rw [he]
        rcases hpick with h | h <;> rw [h] <;> simp
      · exact List.mem_cons_of_mem _ (List.mem_cons_of_mem _ hm)
    · intro x hx
      rcases List.mem_cons.mp hx with hx | hx
      · subst hx
        exact geLex_trans hhead (geLex_pickTop_left x y)
      rcases List.mem_cons.mp hx with hx | hx
      · subst hx
        exact geLex_trans hhead (geLex_pickTop_right g x)
      · exact ihall x (List.mem_cons_of_mem _ hx)

lemma topGroup_spec {l : List (Int × Nat)} {m : Int × Nat} (h : topGroup l = some m) :
    m ∈ l ∧ ∀ x ∈ l, geLex m x := by
  cases l with
  | nil => simp [topGroup] at h
  | cons g gs =>
    simp only [topGroup, Option.some.injEq] at h
    exact h ▸ foldl_pickTop_spec gs g

lemma priceGroups_mem {l : List Int} {x : Int × Nat} (h : x ∈ priceGroups l) :
    x.1 ∈ l ∧ x.2 = freqIn l x.1 := by
  simp only [priceGroups, List.mem_map] at h
  obtain ⟨p, hp, he⟩ := h
  rw [← he]
  exact ⟨List.mem_dedup.mp hp, rfl⟩

lemma countQuery_eq_length (db : List PriceRecord) (city : Option String) (item : String) :
    countQuery db city item = (pricesOf db city item).length := rfl

/-- The mode query returns a price of maximal frequency among the matching
rows, the numerically largest among equally frequent ones. -/
lemma modeQuery_spec (db : List PriceRecord) (city : Option String) (item : String)
    (h : pricesOf db city item ≠ []) :
    ∃ p : Int, modeQuery db city item = some p ∧ p ∈ pricesOf db city item ∧
      ∀ q ∈ pricesOf db city item,
        freqIn (pricesOf db city item) q ≤ freqIn (pricesOf db city item) p ∧
        (freqIn (pricesOf db city item) q = freqIn (pricesOf db city item) p → q ≤ p) := by
  set l := pricesOf db city item with hl
  have hd : l.dedup ≠ [] := by rwa [ne_eq, List.dedup_eq_nil]
  obtain ⟨d, ds, hds⟩ := List.exists_cons_of_ne_nil hd
  have hpg : priceGroups l = (d, freqIn l d) :: ds.map (fun p => (p, freqIn l p)) := by
    simp [priceGroups, hds]
  obtain ⟨m, hm⟩ : ∃ m, topGroup (priceGroups l) = some m := by
    rw [hpg]; exact ⟨_, rfl⟩
  obtain ⟨hmem, hall⟩ := topGroup_spec hm
  obtain ⟨hm1, hm2⟩ := priceGroups_mem hmem
  refine ⟨m.1, ?_, hm1, ?_⟩
  · simp [modeQuery, ← hl, hm]
  · intro q hq
    have hq' : (q, freqIn l q) ∈ priceGroups l := by
      simp only [priceGroups, List.mem_map]
      exact ⟨q, List.mem_dedup.mpr hq, rfl⟩
    have hg := hall _ hq'
    rcases hg with h1 | ⟨h1, h2⟩
    · simp only at h1
      constructor
      · omega
      · intro heq; omega
    · simp only at h1 h2
      constructor
      · omega
      · intro _; exact h2

lemma query_item_price_db_ok (w : World) (city : Option String) (item : String)
    (hfail : w.dbFails = false) (hcount : countQuery w.db city item ≠ 0) :
    ItemPriceService.query_item_price_db w city item =
      ({ w with queries := w.queries + 1 + 1, openTransaction := true },
       Except.ok (countQuery w.db city item, modeQuery w.db city item)) := by
  unfold ItemPriceService.query_item_price_db ItemPriceService.query_db
  simp [hfail, hcount]

lemma query_item_price_db_zero (w : World) (city : Option String) (item : String)
    (hfail : w.dbFails = false) (hzero : countQuery w.db city item = 0) :
    ItemPriceService.query_item_price_db w city item =
      ({ w with queries := w.queries + 1, openTransaction := true },
       Except.ok (0, none)) := by
  unfold ItemPriceService.query_item_price_db ItemPriceService.query_db
  simp [hfail, hzero]

lemma query_item_price_db_fail (w : World) (city : Option String) (item : String)
    (hfail : w.dbFails = true) :
    ItemPriceService.query_item_price_db w city item =
      ({ w with queries := w.queries + 1, openTransaction := false,
                rollbacks := w.rollbacks + 1 },
       Except.error DbError.programmingError) := by
  unfold ItemPriceService.query_item_price_db ItemPriceService.query_db
  simp [hfail]

lemma get_none_eq (w : World) (city : Option String) :
    ItemPriceService.get w none city = (w, Except.ok ERROR_RESPONSE) := rfl

lemma get_hit (w : World) (i : String) (city : Option String) (p : Payload)
    (hhit : cache_get w.cache (price_key i city) w.now = some p) :
    ItemPriceService.get w (some i) city =
      ({ w with cacheGets := w.cacheGets + 1 }, Except.ok p) := by
  unfold ItemPriceService.get
  simp [hhit]

lemma get_miss_zero (w : World) (i : String) (city : Option String)
    (hfail : w.dbFails = false)
    (hmiss : cache_get w.cache (price_key i city) w.now = none)
    (hzero : countQuery w.db city i = 0) :
    ItemPriceService.get w (some i) city =
      ({ w with cacheGets := w.cacheGets + 1, queries := w.queries + 1,
                openTransaction := true },
       Except.ok ERROR_RESPONSE) := by
  unfold ItemPriceService.get
  simp [hmiss, query_item_price_db_zero, hfail, hzero]

/-- The success payload built by `get` for a cache miss with non-zero count. -/
def successPayload (w : World) (i : String) (city : Option String) : Payload :=
  { status := 200,
    content := Content.priceInfo
      { item := i, item_count := countQuery w.db city i,
        price_suggestion := modeQuery w.db city i, city := city_str city } }

lemma get_miss_success (w : World) (i : String) (city : Option String)
    (hfail : w.dbFails = false)
    (hmiss : cache_get w.cache (price_key i city) w.now = none)
    (hcount : countQuery w.db city i ≠ 0) :
    ItemPriceService.get w (some i) city =
      ({ w with cacheGets := w.cacheGets + 1, queries := w.queries + 1 + 1,
                openTransaction := true,
                cache := cache_set w.cache (price_key i city)
                  (successPayload w i city) (w.now + 5 * 60) },
       Except.ok (successPayload w i city)) := by
  unfold ItemPriceService.get
  simp [hmiss, query_item_price_db_ok, hfail, hcount, successPayload]

lemma get_fail (w : World) (i : String) (city : Option String)
    (hfail : w.dbFails = true)
    (hmiss : cache_get w.cache (price_key i city) w.now = none) :
    ItemPriceService.get w (some i) city =
      ({ w with cacheGets := w.cacheGets + 1, queries := w.queries + 1,
                openTransaction := false, rollbacks := w.rollbacks + 1 },
       Except.error DbError.programmingError) := by
  unfold ItemPriceService.get
  simp [hmiss, query_item_price_db_fail, hfail]

lemma cache_get_set_same (c : List CacheEntry) (k : String) (v : Payload) (e t : Nat) :
    cache_get (cache_set c k v e) k t = if t < e then some v else none := by
  simp [cache_get, cache_set, List.find?]

/-! ### Claims -/

/-- C1: for every (item, city) request whose matching record count is
greater than zero, the resolver returns as price_suggestion a list_price
value of maximal occurrence frequency among the matching records, and when
several prices share that maximal frequency it returns the numerically
largest of them. -/
theorem mode_price_is_max_freq_max_price (w : World) (city : Option String) (item : String)
    (hfail : w.dbFails = false)
    (hcount : countQuery w.db city item ≠ 0) :
    ∃ p : Int,
      (ItemPriceService.query_item_price_db w city item).2 =
        Except.ok (countQuery w.db city item, some p) ∧
      p ∈ pricesOf w.db city item ∧
      (∀ q ∈ pricesOf w.db city item,
        freqIn (pricesOf w.db city item) q ≤ freqIn (pricesOf w.db city item) p) ∧
      (∀ q ∈ pricesOf w.db city item,
        freqIn (pricesOf w.db city item) q = freqIn (pricesOf w.db city item) p → q ≤ p) := by
  have hne : pricesOf w.db city item ≠ [] := by
    intro h
    apply hcount
    rw [countQuery_eq_length, h]
    rfl
  obtain ⟨p, hp, hmem, hmax⟩ := modeQuery_spec w.db city item hne
  refine ⟨p, ?_, hmem, fun q hq => (hmax q hq).1, fun q hq => (hmax q hq).2⟩
  rw [query_item_price_db_ok w city item hfail hcount]
  simp [hp]

/-- Witness for C1: the tie scenario with two records at 20 and two at 30
returns 30 (highest price among the equally frequent values). -/
def c1World : World :=
  ⟨[⟨"Lamp", 20, 0, "A", false⟩, ⟨"Lamp", 20, 0, "A", false⟩,
    ⟨"Lamp", 30, 0, "A", false⟩, ⟨"Lamp", 30, 0, "A", false⟩],
   false, [], 0, 0, 0, false, 0⟩

/-- Witness for C1 at the concrete tie scenario. -/
theorem mode_price_is_max_freq_max_price_witness :
    ∃ p : Int,
      (ItemPriceService.query_item_price_db c1World none "Lamp").2 =
        Except.ok (countQuery c1World.db none "Lamp", some p) ∧
      p ∈ pricesOf c1World.db none "Lamp" ∧
      (∀ q ∈ pricesOf c1World.db none "Lamp",
        freqIn (pricesOf c1World.db none "Lamp") q ≤ freqIn (pricesOf c1World.db none "Lamp") p) ∧
      (∀ q ∈ pricesOf c1World.db none "Lamp",
        freqIn (pricesOf c1World.db none "Lamp") q = freqIn (pricesOf c1World.db none "Lamp") p →
          q ≤ p) :=
  mode_price_is_max_freq_max_price c1World none "Lamp" (by decide) (by decide)

/-- C2 counterexample world: one record whose title is the empty string. -/
def c2World : World := ⟨[⟨"", 7, 0, "X", false⟩], false, [], 0, 0, 0, false, 0⟩

/-- C2 counterexample: when item is supplied as the empty string the code
does not return the not-found payload and does touch the store and the
cache, because the handler only tests `item is None`, not emptiness: here
the request returns a 200 payload, runs two store queries and writes a
cache entry. -/
theorem empty_item_reaches_store_counterexample :
    (ItemPriceService.get c2World (some "") none).2 ≠ Except.ok ERROR_RESPONSE ∧
    (ItemPriceService.get c2World (some "") none).1.queries = c2World.queries + 2 ∧
    (ItemPriceService.get c2World (some "") none).1.cache ≠ c2World.cache := by
  decide

/-- C2 (amended): for every request in which item is absent, the handler
returns the not-found payload immediately and the world is untouched: no
backing-store query, no cache probe and no cache write. -/
theorem absent_item_not_found_no_side_effects (w : World) (city : Option String) :
    ItemPriceService.get w none city = (w, Except.ok ERROR_RESPONSE) := rfl

/-- C3: on a cache miss whose count is zero the handler returns the
not-found payload, creates no cache entry, and an immediately repeated
identical request runs a fresh store query. -/
theorem zero_count_not_cached (w : World) (i : String) (city : Option String)
    (hfail : w.dbFails = false)
    (hmiss : cache_get w.cache (price_key i city) w.now = none)
    (hzero : countQuery w.db city i = 0) :
    (ItemPriceService.get w (some i) city).2 = Except.ok ERROR_RESPONSE ∧
    (ItemPriceService.get w (some i) city).1.cache = w.cache ∧
    (ItemPriceService.get (ItemPriceService.get w (some i) city).1 (some i) city).1.queries =
      (ItemPriceService.get w (some i) city).1.queries + 1 := by
  rw [get_miss_zero w i city hfail hmiss hzero]
  refine ⟨rfl, rfl, ?_⟩
  rw [get_miss_zero _ i city (by simpa using hfail) (by simpa using hmiss) (by simpa using hzero)]

/-- Witness world for C3: empty table, so every count is zero. -/
def c3World : World := ⟨[], false, [], 0, 0, 0, false, 0⟩

/-- Witness for C3 at a concrete empty-table world. -/
theorem zero_count_not_cached_witness :
    (ItemPriceService.get c3World (some "Chair") none).2 = Except.ok ERROR_RESPONSE ∧
    (ItemPriceService.get c3World (some "Chair") none).1.cache = c3World.cache ∧
    (ItemPriceService.get (ItemPriceService.get c3World (some "Chair") none).1
        (some "Chair") none).1.queries =
      (ItemPriceService.get c3World (some "Chair") none).1.queries + 1 :=
  zero_count_not_cached c3World "Chair" none (by decide) (by decide) (by decide)

/-- C4: when the count query returns zero the resolver answers (0, none)
having run exactly one store query, so the mode query is never executed. -/
theorem zero_count_skips_mode_query (w : World) (city : Option String) (item : String)
    (hfail : w.dbFails = false) (hzero : countQuery w.db city item = 0) :
    (ItemPriceService.query_item_price_db w city item).2 = Except.ok (0, none) ∧
    (ItemPriceService.query_item_price_db w city item).1.queries = w.queries + 1 := by
  rw [query_item_price_db_zero w city item hfail hzero]
  exact ⟨rfl, rfl⟩

/-- Witness world for C4: a table with no "Chair" rows in Dallas. -/
def c4World : World := ⟨[⟨"Chair", 50, 0, "Austin", false⟩], false, [], 0, 0, 0, false, 0⟩

/-- Witness for C4 at a concrete zero-count query. -/
theorem zero_count_skips_mode_query_witness :
    (ItemPriceService.query_item_price_db c4World (some "Dallas") "Chair").2 =
      Except.ok (0, none) ∧
    (ItemPriceService.query_item_price_db c4World (some "Dallas") "Chair").1.queries =
      c4World.queries + 1 :=
  zero_count_skips_mode_query c4World (some "Dallas") "Chair" (by decide) (by decide)

/-- The filter as the spec words it: match records whose title equals item,
and additionally require city equality only when both item and city are
non-empty (an absent city counts as empty). -/
def specFilter (city : Option String) (item : String) (r : PriceRecord) : Bool :=
  (r.title == item) &&
    (if city.getD "" ≠ "" ∧ item ≠ "" then r.city == city.getD "" else true)

/-- C5: both resolver queries filter records by title equality, adding the
city clause exactly when both item and city are non-empty; with an empty or
absent city they aggregate across all cities.  Stated as: the count query
and the mode query both compute over the rows selected by `specFilter`. -/
theorem queries_filter_by_title_and_conditional_city (db : List PriceRecord)
    (city : Option String) (item : String) :
    countQuery db city item =
      ((db.filter (specFilter city item)).map (fun r => r.list_price)).length ∧
    modeQuery db city item =
      (topGroup (priceGroups ((db.filter (specFilter city item)).map
        (fun r => r.list_price)))).map (fun g => g.1) := by
  have hf : rowMatches city item = specFilter city item := by
    funext r
    cases city with
    | none => simp [rowMatches, specFilter, pyTruthy, pyTruthyStr]
    | some c =>
      by_cases hc : c = ""
      · subst hc
        simp [rowMatches, specFilter, pyTruthy, pyTruthyStr]
      · by_cases hi : item = "" <;>
          simp [rowMatches, specFilter, pyTruthy, pyTruthyStr, hc, hi]
  constructor
  · rw [countQuery, hf]
  · rw [modeQuery, pricesOf, hf]

/-- C6 counterexample world: one "x" record, empty cache, time 0. -/
def c6World0 : World := ⟨[⟨"x", 5, 0, "A", false⟩], false, [], 0, 0, 0, false, 0⟩

/-- World after a priming request at time 0 (caches the payload until 300). -/
def c6WorldA : World := (ItemPriceService.get c6World0 (some "x") none).1

/-- The first of the two identical requests, issued at time 299: cache hit. -/
def c6First : World × Except DbError Payload :=
  ItemPriceService.get { c6WorldA with now := 299 } (some "x") none

/-- The second identical request, issued 2 seconds later at time 301. -/
def c6Second : World × Except DbError Payload :=
  ItemPriceService.get { c6First.1 with now := 301 } (some "x") none

/-- C6 counterexample: two identical requests 2 seconds apart (at 299s and
301s), the first returning a success payload — yet the second runs two
fresh backing-store queries, because the cache entry written by a priming
request at 0s expired at 300s.  So a success-producing request repeated
within 300 seconds does not guarantee that the second performs no store
query. -/
theorem repeat_within_300s_requeries_counterexample :
    c6First.2 =
      Except.ok ⟨200, Content.priceInfo ⟨"x", 1, some 5, "Not specified"⟩⟩ ∧
    301 - 299 < 300 ∧
    c6Second.1.queries = c6First.1.queries + 2 := by
  decide

/-- C6 (amended): issuing the same (item, city) request twice within 300
seconds, where the first request is a cache miss producing a success
payload, yields identical payloads for both requests and the second request
performs no backing-store query. -/
theorem idempotent_within_ttl_from_miss (w : World) (i : String) (city : Option String)
    (t2 : Nat)
    (hfail : w.dbFails = false)
    (hmiss : cache_get w.cache (price_key i city) w.now = none)
    (hcount : countQuery w.db city i ≠ 0)
    (hle : w.now ≤ t2) (hlt : t2 < w.now + 300) :
    (ItemPriceService.get { (ItemPriceService.get w (some i) city).1 with now := t2 }
        (some i) city).2 = (ItemPriceService.get w (some i) city).2 ∧
    (ItemPriceService.get { (ItemPriceService.get w (some i) city).1 with now := t2 }
        (some i) city).1.queries = (ItemPriceService.get w (some i) city).1.queries := by
  rw [get_miss_success w i city hfail hmiss hcount]
  have hhit :
      cache_get (cache_set w.cache (price_key i city) (successPayload w i city) (w.now + 5 * 60))
        (price_key i city) t2 = some (successPayload w i city) := by
    rw [cache_get_set_same]
    have ht : t2 < w.now + 5 * 60 := by omega
    rw [if_pos ht]
  constructor
  · rw [get_hit _ i city (successPayload w i city) hhit]
  · rw [get_hit _ i city (successPayload w i city) hhit]

/-- Witness world for the amended C6. -/
def c6WitWorld : World := ⟨[⟨"x", 5, 0, "A", false⟩], false, [], 0, 0, 0, false, 0⟩

/-- Witness for the amended C6: a miss at time 0 followed by the identical
request at time 100. -/
theorem idempotent_within_ttl_from_miss_witness :
    (ItemPriceService.get { (ItemPriceService.get c6WitWorld (some "x") none).1 with now := 100 }
        (some "x") none).2 = (ItemPriceService.get c6WitWorld (some "x") none).2 ∧
    (ItemPriceService.get { (ItemPriceService.get c6WitWorld (some "x") none).1 with now := 100 }
        (some "x") none).1.queries = (ItemPriceService.get c6WitWorld (some "x") none).1.queries :=
  idempotent_within_ttl_from_miss c6WitWorld "x" none 100
    (by decide) (by decide) (by decide) (by decide) (by decide)

/-- C7 counterexample world: one "Chair" record, empty cache. -/
def c7World : World := ⟨[⟨"Chair", 9, 0, "A", false⟩], false, [], 0, 0, 0, false, 0⟩

/-- C7 counterexample: a request supplying the empty-string city and a
request omitting city derive the same cache key, and they do collide: the
city-omitted request is served the entry cached by the empty-city request
(its city field is "", not "Not specified") and runs no store query. -/
theorem empty_city_key_collides_counterexample :
    price_key "Chair" (some "") = price_key "Chair" none ∧
    (ItemPriceService.get (ItemPriceService.get c7World (some "Chair") (some "")).1
        (some "Chair") none).2 =
      Except.ok ⟨200, Content.priceInfo ⟨"Chair", 1, some 9, ""⟩⟩ ∧
    (ItemPriceService.get (ItemPriceService.get c7World (some "Chair") (some "")).1
        (some "Chair") none).1.queries =
      (ItemPriceService.get c7World (some "Chair") (some "")).1.queries := by
  decide

/-- C7 (amended): when the supplied city is non-empty the two requests
derive distinct cache keys and cannot share a cached entry; the key is the
concatenation of city then item when city is present, else item alone. -/
theorem nonempty_city_distinct_key (item c : String) (h : c ≠ "") :
    price_key item (some c) ≠ price_key item none ∧
    price_key item (some c) = c ++ item ∧
    price_key item none = item := by
  refine ⟨?_, rfl, rfl⟩
  intro he
  apply h
  have hlen : (c ++ item).length = item.length := congrArg String.length he
  rw [String.length_append] at hlen
  have hz : c.length = 0 := by omega
  cases c with
  | mk data =>
    cases data with
    | nil => rfl
    | cons a as => simp [String.length] at hz

/-- Witness for the amended C7 at a concrete non-empty city. -/
theorem nonempty_city_distinct_key_witness :
    price_key "Chair" (some "Austin") ≠ price_key "Chair" none ∧
    price_key "Chair" (some "Austin") = "Austin" ++ "Chair" ∧
    price_key "Chair" none = "Chair" :=
  nonempty_city_distinct_key "Chair" "Austin" (by decide)

/-- C8: when the backing store fails with a programming-class error, the
request surfaces the error as a hard failure, the connection's transaction
has been rolled back (rollback count incremented, no transaction left
open), and no cache entry is written. -/
theorem programming_error_rollback_no_cache (w : World) (i : String) (city : Option String)
    (hfail : w.dbFails = true)
    (hmiss : cache_get w.cache (price_key i city) w.now = none) :
    (ItemPriceService.get w (some i) city).2 = Except.error DbError.programmingError ∧
    (ItemPriceService.get w (some i) city).1.rollbacks = w.rollbacks + 1 ∧
    (ItemPriceService.get w (some i) city).1.openTransaction = false ∧
    (ItemPriceService.get w (some i) city).1.cache = w.cache := by
  rw [get_fail w i city hfail hmiss]
  exact ⟨rfl, rfl, rfl, rfl⟩

/-- Witness world for C8: the store raises on every query; a transaction is
open from earlier work. -/
def c8World : World := ⟨[⟨"Chair", 9, 0, "A", false⟩], true, [], 0, 0, 0, true, 0⟩

/-- Witness for C8 at a concrete failing-store world. -/
theorem programming_error_rollback_no_cache_witness :
    (ItemPriceService.get c8World (some "Chair") none).2 =
      Except.error DbError.programmingError ∧
    (ItemPriceService.get c8World (some "Chair") none).1.rollbacks = c8World.rollbacks + 1 ∧
    (ItemPriceService.get c8World (some "Chair") none).1.openTransaction = false ∧
    (ItemPriceService.get c8World (some "Chair") none).1.cache = c8World.cache :=
  programming_error_rollback_no_cache c8World "Chair" none (by decide) (by decide)

/-- C9: on a cache miss with a non-zero count the handler returns a
status-200 payload whose city field is the literal "Not specified" when no
city was supplied and the supplied city verbatim otherwise, and stores that
payload in the cache expiring 300 seconds from now. -/
theorem miss_success_payload_cached_ttl300 (w : World) (i : String) (city : Option String)
    (hfail : w.dbFails = false)
    (hmiss : cache_get w.cache (price_key i city) w.now = none)
    (hcount : countQuery w.db city i ≠ 0) :
    (ItemPriceService.get w (some i) city).2 =
      Except.ok
        { status := 200,
          content := Content.priceInfo
            { item := i, item_count := countQuery w.db city i,
              price_suggestion := modeQuery w.db city i,
              city := (match city with | none => "Not specified" | some c => c) } } ∧
    (ItemPriceService.get w (some i) city).1.cache =
      cache_set w.cache (price_key i city)
        { status := 200,
          content := Content.priceInfo
            { item := i, item_count := countQuery w.db city i,
              price_suggestion := modeQuery w.db city i,
              city := (match city with | none => "Not specified" | some c => c) } }
        (w.now + 300) := by
  rw [get_miss_success w i city hfail hmiss hcount]
  cases city <;> simp [successPayload, city_str]

/-- Witness world for C9. -/
def c9World : World := ⟨[⟨"Chair", 50, 0, "Austin", false⟩], false, [], 7, 0, 0, false, 0⟩

/-- Witness for C9 at a concrete request with a supplied city. -/
theorem miss_success_payload_cached_ttl300_witness :
    (ItemPriceService.get c9World (some "Chair") (some "Austin")).2 =
      Except.ok
        { status := 200,
          content := Content.priceInfo
            { item := "Chair", item_count := countQuery c9World.db (some "Austin") "Chair",
              price_suggestion := modeQuery c9World.db (some "Austin") "Chair",
              city := (match (some "Austin" : Option String) with
                      | none => "Not specified" | some c => c) } } ∧
    (ItemPriceService.get c9World (some "Chair") (some "Austin")).1.cache =
      cache_set c9World.cache (price_key "Chair" (some "Austin"))
        { status := 200,
          content := Content.priceInfo
            { item := "Chair", item_count := countQuery c9World.db (some "Austin") "Chair",
              price_suggestion := modeQuery c9World.db (some "Austin") "Chair",
              city := (match (some "Austin" : Option String) with
                      | none => "Not specified" | some c => c) } }
        (c9World.now + 300) :=
  miss_success_payload_cached_ttl300 c9World "Chair" (some "Austin")
    (by decide) (by decide) (by decide)

lemma rowMatches_empty_city (i : String) :
    rowMatches (some "") i = rowMatches none i := by
  funext r
  simp [rowMatches, pyTruthy]

/-- C10: for a non-empty item, a request with city supplied as the empty
string derives the same cache key and the same backing-store queries as the
request with city omitted (key derivation tests `city is None`, query
filtering tests truthiness), yet its success payload carries city field ""
rather than "Not specified". -/
theorem empty_city_same_key_same_queries_different_city_field (w : World) (i : String)
    (_hitem : i ≠ "")
    (hfail : w.dbFails = false)
    (hmiss : cache_get w.cache (price_key i (some "")) w.now = none)
    (hcount : countQuery w.db (some "") i ≠ 0) :
    price_key i (some "") = price_key i none ∧
    countQuery w.db (some "") i = countQuery w.db none i ∧
    modeQuery w.db (some "") i = modeQuery w.db none i ∧
    (ItemPriceService.get w (some i) (some "")).2 =
      Except.ok ⟨200, Content.priceInfo
        ⟨i, countQuery w.db (some "") i, modeQuery w.db (some "") i, ""⟩⟩ ∧
    (ItemPriceService.get w (some i) none).2 =
      Except.ok ⟨200, Content.priceInfo
        ⟨i, countQuery w.db none i, modeQuery w.db none i, "Not specified"⟩⟩ := by
  have hrow := rowMatches_empty_city i
  have hcq : countQuery w.db (some "") i = countQuery w.db none i := by
    unfold countQuery
    rw [hrow]
  have hmq : modeQuery w.db (some "") i = modeQuery w.db none i := by
    unfold modeQuery pricesOf
    rw [hrow]
  refine ⟨rfl, hcq, hmq, ?_, ?_⟩
  · rw [get_miss_success w i (some "") hfail hmiss hcount]
    simp [successPayload, city_str]
  · have hmiss' : cache_get w.cache (price_key i none) w.now = none := hmiss
    have hcount' : countQuery w.db none i ≠ 0 := by
      rw [← hcq]
      exact hcount
    rw [get_miss_success w i none hfail hmiss' hcount']
    simp [successPayload, city_str]

/-- Witness world for C10. -/
def c10World : World := ⟨[⟨"Chair", 9, 0, "A", false⟩], false, [], 0, 0, 0, false, 0⟩

/-- Witness for C10 at a concrete non-empty item. -/
theorem empty_city_same_key_same_queries_different_city_field_witness :
    price_key "Chair" (some "") = price_key "Chair" none ∧
    countQuery c10World.db (some "") "Chair" = countQuery c10World.db none "Chair" ∧
    modeQuery c10World.db (some "") "Chair" = modeQuery c10World.db none "Chair" ∧
    (ItemPriceService.get c10World (some "Chair") (some "")).2 =
      Except.ok ⟨200, Content.priceInfo
        ⟨"Chair", countQuery c10World.db (some "") "Chair",
         modeQuery c10World.db (some "") "Chair", ""⟩⟩ ∧
    (ItemPriceService.get c10World (some "Chair") none).2 =
      Except.ok ⟨200, Content.priceInfo
        ⟨"Chair", countQuery c10World.db none "Chair",
         modeQuery c10World.db none "Chair", "Not specified"⟩⟩ :=
  empty_city_same_key_same_queries_different_city_field c10World "Chair"
    (by decide) (by decide) (by decide) (by decide)
